import Mathlib

set_option maxRecDepth 100000

/-!
Verification of the agent Helm config data source of the
terraform-provider-hcs repository
(internal/provider/data_source_agent_helm_config.go).

The file embeds the renderer `generateHelmConfig`, the template constant
`helmConfigTemplate`, and the read operation `dataSourceAgentHelmConfigRead`
as executable Lean definitions, and proves the specification claims about
them.  Strings are modelled by Lean `String` (a structure over `List Char`);
machinery that Go takes from its standard library (`fmt.Sprintf "%q"`,
`strings.Replace`, `strings.ToLower`) is translated explicitly below.
-/

/-- The double-quote character, written via its code point. -/
def dqChar : Char := Char.ofNat 34

/-- The backslash character, written via its code point. -/
def bsChar : Char := Char.ofNat 92

/-- The single-quote character, written via its code point. -/
def sqChar : Char := Char.ofNat 39

/-- Models Go strconv escaping of one character inside a double-quoted
string, as performed by `fmt.Sprintf("%q", ...)`: the double quote and the
backslash are escaped with a backslash, the common control characters get
their mnemonic escapes, and printable characters are emitted verbatim.
(Escapes for other non-printable code points are not modelled; every claim
exercises printable addresses only.) -/
def goEscapeChar (c : Char) : List Char :=
  if c = dqChar then [bsChar, dqChar]
  else if c = bsChar then [bsChar, bsChar]
  else if c = Char.ofNat 10 then [bsChar, Char.ofNat 110]
  else if c = Char.ofNat 9 then [bsChar, Char.ofNat 116]
  else if c = Char.ofNat 13 then [bsChar, Char.ofNat 114]
  else [c]

/-- Models Go `fmt.Sprintf("%q", s)` for a string `s`: the escaped text
surrounded by double quotes. -/
def goQuote (s : String) : String :=
  ⟨dqChar :: (s.data.flatMap goEscapeChar) ++ [dqChar]⟩

/-- Concatenates a list of character lists with a separator between
consecutive elements. -/
def intercalateChars (sep : List Char) : List (List Char) → List Char
  | [] => []
  | [x] => x
  | x :: y :: xs => x ++ sep ++ intercalateChars sep (y :: xs)

/-- Models Go `fmt.Sprintf("%q", xs)` for a string slice `xs`: each element
is rendered with `%q` and the results are joined with single spaces inside
square brackets (Go fmt lays a slice out as `[elem0 elem1 ...]`). -/
def goQuoteSlice (xs : List String) : String :=
  ⟨(Char.ofNat 91) ::
    intercalateChars [Char.ofNat 32] (xs.map fun x => (goQuote x).data) ++
    [Char.ofNat 93]⟩

/-- Fuel-indexed scanner for `replaceList`; the fuel is the length of the
scanned list, which bounds the number of scanning steps since every step
consumes at least one character. -/
def replaceListAux (pat rep : List Char) : Nat → List Char → List Char
  | _, [] => []
  | 0, s => s
  | fuel + 1, c :: rest =>
    if pat.isPrefixOf (c :: rest) ∧ pat ≠ [] then
      rep ++ replaceListAux pat rep fuel ((c :: rest).drop pat.length)
    else
      c :: replaceListAux pat rep fuel rest

/-- Models Go `strings.Replace(s, old, new, -1)` (for a non-empty pattern):
every non-overlapping occurrence of `pat`, scanning left to right, is
replaced by `rep`. -/
def replaceList (pat rep s : List Char) : List Char :=
  replaceListAux pat rep s.length s

/-- Models Go `strings.ToLower` on one character for the ASCII range
(the claims only exercise ASCII names; Unicode case folding is not
modelled). -/
def goCharToLower (c : Char) : Char :=
  if 65 ≤ c.toNat ∧ c.toNat ≤ 90 then Char.ofNat (c.toNat + 32) else c

/-- Models Go `strings.ToLower` (ASCII range, see `goCharToLower`). -/
def goToLower (s : String) : String :=
  ⟨s.data.map goCharToLower⟩

/-!
The template constant `helmConfigTemplate` of the source is a Go format
string with seven `%s` verbs.  `helmSeg1` … `helmSeg8` are its literal
pieces between the verbs, so that `Sprintf` on it is the alternating
concatenation `helmConfigTemplate` below.
-/

/-- Template text before the first verb (`datacenter`). -/
def helmSeg1 : String :=
  "global:\n  enabled: false\n  name: consul\n  datacenter: "

/-- Template text between the `datacenter` verb and the first secret-name
verb. -/
def helmSeg2 : String :=
  "\n  acls:\n    manageSystemACLs: true\n    bootstrapToken:\n      secretName: "

/-- Template text between the first and second secret-name verbs. -/
def helmSeg3 : String :=
  "-bootstrap-token\n      secretKey: token\n  gossipEncryption:\n    secretName: "

/-- Template text between the second and third secret-name verbs. -/
def helmSeg4 : String :=
  "-hcs\n    secretKey: gossipEncryptionKey\n  tls:\n    enabled: true\n    enableAutoEncrypt: true\n    caCert:\n      secretName: "

/-- Template text between the third secret-name verb and the `hosts` verb. -/
def helmSeg5 : String :=
  "-hcs\n      secretKey: caCert\nexternalServers:\n  enabled: true\n  hosts: "

/-- Template text between the `hosts` verb and the `fqdn` verb. -/
def helmSeg6 : String :=
  "\n  httpsPort: 443\n  useSystemRoots: true\n  k8sAuthMethodHost: https://"

/-- Template text between the `fqdn` verb and the `join` verb. -/
def helmSeg7 : String :=
  ":443\nclient:\n  enabled: true\n  # If you are using Kubenet in your AKS cluster (the default network),\n  # uncomment the line below.\n  # exposeGossipPorts: true\n  join: "

/-- Template text after the `join` verb. -/
def helmSeg8 : String :=
  "\nconnectInject:\n  enabled: true"

/-- Models `fmt.Sprintf(helmConfigTemplate, datacenter, p1, p2, p3, hosts,
fqdn, join)`: the seven positional substitutions into the template constant
of the source, in the source's order. -/
def helmConfigTemplate (datacenter p1 p2 p3 hosts fqdn join : String) : String :=
  helmSeg1 ++ datacenter ++ helmSeg2 ++ p1 ++ helmSeg3 ++ p2 ++ helmSeg4 ++ p3 ++
    helmSeg5 ++ hosts ++ helmSeg6 ++ fqdn ++ helmSeg7 ++ join ++ helmSeg8

/-- The join-list token of `generateHelmConfig`: `rj := fmt.Sprintf("%q",
retryJoin)` followed by `strings.Replace(rj, "\"", "'", -1)`. -/
def joinListToken (retryJoin : List String) : String :=
  ⟨replaceList [dqChar] [sqChar] (goQuoteSlice retryJoin).data⟩

/-- Models `generateHelmConfig(name, datacenter, fqdn, retryJoin)`: the
name is lowercased and substituted into the three secret-name verbs, the
join-list token into the `hosts` and `join` verbs. -/
def generateHelmConfig (name datacenter fqdn : String) (retryJoin : List String) : String :=
  helmConfigTemplate datacenter (goToLower name) (goToLower name) (goToLower name)
    (joinListToken retryJoin) fqdn (joinListToken retryJoin)

/-- Number of (possibly overlapping) occurrences of `pat` as a contiguous
run inside the second list. -/
def occCount (pat : List Char) : List Char → Nat
  | [] => 0
  | c :: rest => (if pat.isPrefixOf (c :: rest) then 1 else 0) + occCount pat rest

/-!
The read operation.  The Azure SDK responses consumed by
`dataSourceAgentHelmConfigRead` are modelled by the fields the source
actually reads: the HTTP status code and the pointer-typed fields, the
latter as `Option String` (`none` is a nil pointer, whose dereference is a
Go run-time panic).  The network clients and `encoding/json` are external
collaborators and enter as oracle functions in `Clients`.
-/

/-- The slice of the managed-application response read by the source:
`app.Response.StatusCode`, `app.ManagedResourceGroupID` and `app.ID`
(the latter two are pointers in the SDK). -/
structure ManagedApplication where
  statusCode : Nat
  managedResourceGroupID : Option String
  id : Option String

/-- The slice of the custom-resource-provider config response read by the
source: `resp.ClientConfig`, a JSON text. -/
structure ConfigResponse where
  clientConfig : String

/-- The slice of the managed-cluster response read by the source:
`mcResp.Response.StatusCode` and the pointer-typed `mcResp.Fqdn`. -/
structure ManagedCluster where
  statusCode : Nat
  fqdn : Option String

/-- The `ConsulConfig` struct of the source: the datacenter and the
`retry_join` address list parsed from the client config JSON. -/
structure ConsulConfig where
  datacenter : String
  retryJoin : List String

/-- The four configuration fields the read operation gets from the
resource data.  The optional `aks_resource_group` reads as the empty
string when absent (Go `d.Get` zero value). -/
structure ReadInputs where
  resourceGroupName : String
  managedApplicationName : String
  aksClusterName : String
  aksResourceGroup : String

/-- The external collaborators of the read operation: the three network
clients reached through `meta`, plus `encoding/json` unmarshalling of a
`ConsulConfig` (an external library; only its success or failure and the
parsed record matter to this code).  `Except.error` carries the Go error
formatted as by the `%v` verbs of the source's messages. -/
structure Clients where
  managedApplicationGet : String → String → Except String ManagedApplication
  customResourceProviderConfig : String → Except String ConfigResponse
  jsonUnmarshalConsulConfig : String → Except String ConsulConfig
  managedClustersGet : String → String → Except String ManagedCluster

/-- Outcome of one invocation of the read operation: success sets the
`config` attribute and the resource id, `diag` is a returned diagnostics
message, `nilDeref` a Go run-time nil-pointer dereference panic. -/
inductive ReadResult where
  | ok (config : String) (id : String)
  | diag (msg : String)
  | nilDeref
deriving DecidableEq

/-- Message of the managed-application lookup transport failure
(`diag.Errorf` at the `err != nil` branch of the first lookup). -/
def appTransportMsg (managedAppName resourceGroupName err : String) : String :=
  "failed to check for presence of existing HCS Cluster (Managed Application " ++
    goQuote managedAppName ++ ") (Resource Group " ++ goQuote resourceGroupName ++ "): " ++ err

/-- Message of the managed-application not-found failure (`diag.Errorf` at
the `StatusCode == 404` branch of the first lookup). -/
def appNotFoundMsg (managedAppName resourceGroupName : String) : String :=
  "[ERROR] no HCS Cluster found for (Managed Application " ++ goQuote managedAppName ++
    ") (Resource Group " ++ goQuote resourceGroupName ++ ")."

/-- Message of the config fetch failure. -/
def configTransportMsg (err : String) : String :=
  "failed to get config for managed app: " ++ err

/-- Message of the JSON unmarshal failure. -/
def unmarshalFailMsg (err : String) : String :=
  "failed to json unmarshal Consul config " ++ err

/-- Message of the managed-cluster lookup transport failure. -/
def clusterTransportMsg (aksClusterName aksResourceGroup err : String) : String :=
  "failed to check for presence of existing AKS Cluster (Cluster name " ++
    goQuote aksClusterName ++ ") (Resource Group " ++ goQuote aksResourceGroup ++ "): " ++ err

/-- Message of the managed-cluster not-found failure. -/
def clusterNotFoundMsg (aksClusterName aksResourceGroup : String) : String :=
  "[ERROR] no AKS Cluster found for (Cluster name " ++ goQuote aksClusterName ++
    ") (Resource Group " ++ goQuote aksResourceGroup ++ ")."

/-- The defaulting of the AKS resource group (source lines 126–130):
`aks_resource_group` if non-empty, else `resource_group_name`. -/
def effectiveAksResourceGroup (aksResourceGroup resourceGroupName : String) : String :=
  if aksResourceGroup = "" then resourceGroupName else aksResourceGroup

/-- Go pointer dereference: `none` (a nil pointer) panics, otherwise the
computation continues with the value. -/
def derefOr (o : Option String) (k : String → ReadResult) : ReadResult :=
  match o with
  | none => ReadResult.nilDeref
  | some s => k s

/-- Models `dataSourceAgentHelmConfigRead`: the two lookups with their
error-to-diagnostic translation, the JSON unmarshal, the AKS resource
group defaulting, the render, and the id assignment, in source order. -/
def dataSourceAgentHelmConfigRead (d : ReadInputs) (meta : Clients) : ReadResult :=
  match meta.managedApplicationGet d.resourceGroupName d.managedApplicationName with
  | Except.error e => ReadResult.diag (appTransportMsg d.managedApplicationName d.resourceGroupName e)
  | Except.ok app =>
    if app.statusCode = 404 then
      ReadResult.diag (appNotFoundMsg d.managedApplicationName d.resourceGroupName)
    else
      derefOr app.managedResourceGroupID fun managedAppManagedResourceGroupID =>
        match meta.customResourceProviderConfig managedAppManagedResourceGroupID with
        | Except.error e => ReadResult.diag (configTransportMsg e)
        | Except.ok resp =>
          match meta.jsonUnmarshalConsulConfig resp.clientConfig with
          | Except.error e => ReadResult.diag (unmarshalFailMsg e)
          | Except.ok consulConfig =>
            match meta.managedClustersGet
                (effectiveAksResourceGroup d.aksResourceGroup d.resourceGroupName)
                d.aksClusterName with
            | Except.error e =>
              ReadResult.diag (clusterTransportMsg d.aksClusterName
                (effectiveAksResourceGroup d.aksResourceGroup d.resourceGroupName) e)
            | Except.ok mcResp =>
              if mcResp.statusCode = 404 then
                ReadResult.diag (clusterNotFoundMsg d.aksClusterName
                  (effectiveAksResourceGroup d.aksResourceGroup d.resourceGroupName))
              else
                derefOr mcResp.fqdn fun fqdn =>
                  derefOr app.id fun appID =>
                    ReadResult.ok
                      (generateHelmConfig d.managedApplicationName consulConfig.datacenter
                        fqdn consulConfig.retryJoin)
                      (appID ++ "/agent-helm-config")

/-- Concrete inputs used by the witnesses: the optional
`aks_resource_group` is absent (empty string). -/
def witnessInputs : ReadInputs :=
  ⟨"rg-one", "App-One", "aks-one", ""⟩

/-- Concrete collaborators for a fully successful read. -/
def witnessClients : Clients where
  managedApplicationGet := fun _ _ => Except.ok ⟨200, some "managed-rg", some "app-id"⟩
  customResourceProviderConfig := fun _ => Except.ok ⟨"client-config-json"⟩
  jsonUnmarshalConsulConfig := fun _ => Except.ok ⟨"dc1", ["1.2.3.4"]⟩
  managedClustersGet := fun _ _ => Except.ok ⟨200, some "cluster.example.com"⟩

/-- Concrete collaborators whose managed-application lookup reports 404. -/
def witness404Clients : Clients where
  managedApplicationGet := fun _ _ => Except.ok ⟨404, none, none⟩
  customResourceProviderConfig := fun _ => Except.error "unreachable"
  jsonUnmarshalConsulConfig := fun _ => Except.error "unreachable"
  managedClustersGet := fun _ _ => Except.error "unreachable"

/-- Concrete collaborators whose managed-application response carries nil
pointers with a 200 status. -/
def witnessNilClients : Clients where
  managedApplicationGet := fun _ _ => Except.ok ⟨200, none, none⟩
  customResourceProviderConfig := fun _ => Except.error "unreachable"
  jsonUnmarshalConsulConfig := fun _ => Except.error "unreachable"
  managedClustersGet := fun _ _ => Except.error "unreachable"

/-!
Claims about the renderer.
-/

/-- C1 (counterexample): for `joinAddresses = ["10.0.0.1", "10.0.0.2"]` the
rendered output nowhere contains the comma-separated token
`['10.0.0.1', '10.0.0.2']` claimed by the spec, and the join-list token is
not that string. -/
theorem join_token_comma_counterexample :
    occCount ("['10.0.0.1', '10.0.0.2']").data
        (generateHelmConfig "demo" "dc1" "example.com" ["10.0.0.1", "10.0.0.2"]).data = 0 ∧
      joinListToken ["10.0.0.1", "10.0.0.2"] ≠ "['10.0.0.1', '10.0.0.2']" := by
  decide

/-- C1 (amended): given `joinAddresses = ["10.0.0.1", "10.0.0.2"]`, the list
token substituted into both list positions of the template wraps each
address in single quotes and separates the addresses with a single space,
yielding exactly `['10.0.0.1' '10.0.0.2']` (Go fmt lays a slice out with
space separators, and the substitution keeps that layout). -/
theorem join_token_space_separated (n d f : String) :
    joinListToken ["10.0.0.1", "10.0.0.2"] = "['10.0.0.1' '10.0.0.2']" ∧
      generateHelmConfig n d f ["10.0.0.1", "10.0.0.2"] =
        helmConfigTemplate d (goToLower n) (goToLower n) (goToLower n)
          "['10.0.0.1' '10.0.0.2']" f "['10.0.0.1' '10.0.0.2']" := by
  have h : joinListToken ["10.0.0.1", "10.0.0.2"] = "['10.0.0.1' '10.0.0.2']" := by decide
  exact ⟨h, by simp only [generateHelmConfig, h]⟩

/-- C2: for `applicationName="MyApp"`, `datacenter="dc1"`,
`clusterFqdn="cluster.example.com"`, `joinAddresses=["1.2.3.4"]` the output
contains `datacenter: dc1`, `secretName: myapp-bootstrap-token`,
`secretName: myapp-hcs` (occurring exactly twice), `hosts: ['1.2.3.4']`,
`k8sAuthMethodHost: https://cluster.example.com:443` and
`join: ['1.2.3.4']`. -/
theorem end_to_end_scenario_substrings :
    1 ≤ occCount ("datacenter: dc1").data
        (generateHelmConfig "MyApp" "dc1" "cluster.example.com" ["1.2.3.4"]).data ∧
      1 ≤ occCount ("secretName: myapp-bootstrap-token").data
        (generateHelmConfig "MyApp" "dc1" "cluster.example.com" ["1.2.3.4"]).data ∧
      occCount ("secretName: myapp-hcs").data
        (generateHelmConfig "MyApp" "dc1" "cluster.example.com" ["1.2.3.4"]).data = 2 ∧
      1 ≤ occCount ("hosts: ['1.2.3.4']").data
        (generateHelmConfig "MyApp" "dc1" "cluster.example.com" ["1.2.3.4"]).data ∧
      1 ≤ occCount ("k8sAuthMethodHost: https://cluster.example.com:443").data
        (generateHelmConfig "MyApp" "dc1" "cluster.example.com" ["1.2.3.4"]).data ∧
      1 ≤ occCount ("join: ['1.2.3.4']").data
        (generateHelmConfig "MyApp" "dc1" "cluster.example.com" ["1.2.3.4"]).data := by
  decide

/-- C3: for every join-address sequence (and arbitrary other inputs) a
single token is substituted both into the `externalServers.hosts` verb and
into the `client.join` verb of the template: the two tokens are textually
identical. -/
theorem hosts_join_token_identical (n d f : String) (rj : List String) :
    ∃ tok, tok = joinListToken rj ∧
      generateHelmConfig n d f rj =
        helmConfigTemplate d (goToLower n) (goToLower n) (goToLower n) tok f tok :=
  ⟨joinListToken rj, rfl, rfl⟩

/-- C4: for every non-empty application name the output decomposes around
three secret-name positions, one `-bootstrap-token` and two `-hcs`
references, each carrying the same prefix `goToLower name`; and the
template text has exactly three secret-name sites. -/
theorem secret_name_slug_three_sites (n d f : String) (rj : List String) (hn : n ≠ "") :
    (∃ A B C D, generateHelmConfig n d f rj =
        A ++ ("secretName: " ++ goToLower n ++ "-bootstrap-token") ++ B ++
          ("secretName: " ++ goToLower n ++ "-hcs") ++ C ++
          ("secretName: " ++ goToLower n ++ "-hcs") ++ D) ∧
      occCount ("secretName: ").data (helmConfigTemplate "" "" "" "" "" "" "").data = 3 := by
  constructor
  · refine ⟨helmSeg1 ++ d ++ "\n  acls:\n    manageSystemACLs: true\n    bootstrapToken:\n      ",
      "\n      secretKey: token\n  gossipEncryption:\n    ",
      "\n    secretKey: gossipEncryptionKey\n  tls:\n    enabled: true\n    enableAutoEncrypt: true\n    caCert:\n      ",
      "\n      secretKey: caCert\nexternalServers:\n  enabled: true\n  hosts: " ++
        joinListToken rj ++ helmSeg6 ++ f ++ helmSeg7 ++ joinListToken rj ++ helmSeg8, ?_⟩
    simp only [generateHelmConfig, helmConfigTemplate]
    rw [show helmSeg2 =
          "\n  acls:\n    manageSystemACLs: true\n    bootstrapToken:\n      " ++
            "secretName: " from rfl,
        show helmSeg3 =
          "-bootstrap-token" ++ "\n      secretKey: token\n  gossipEncryption:\n    " ++
            "secretName: " from rfl,
        show helmSeg4 =
          "-hcs" ++
            "\n    secretKey: gossipEncryptionKey\n  tls:\n    enabled: true\n    enableAutoEncrypt: true\n    caCert:\n      " ++
            "secretName: " from rfl,
        show helmSeg5 =
          "-hcs" ++ "\n      secretKey: caCert\nexternalServers:\n  enabled: true\n  hosts: "
          from rfl]
    simp only [String.append_assoc]
  · decide

/-- C5: for the empty join-address sequence the join-list token is the
empty bracket pair `[]`, substituted into both list verbs of the template,
and the rendered output still carries the `externalServers.hosts` and
`client.join` keys, each followed by `[]`. -/
theorem empty_join_renders_empty_brackets (n d f : String) :
    joinListToken [] = "[]" ∧
      generateHelmConfig n d f [] =
        helmConfigTemplate d (goToLower n) (goToLower n) (goToLower n) "[]" f "[]" ∧
      ∃ A B C, generateHelmConfig n d f [] =
        A ++ "externalServers:\n  enabled: true\n  hosts: []" ++ B ++ "join: []" ++ C := by
  have h0 : joinListToken [] = "[]" := by decide
  refine ⟨h0, by simp only [generateHelmConfig, h0], ?_⟩
  refine ⟨helmSeg1 ++ d ++ helmSeg2 ++ goToLower n ++ helmSeg3 ++ goToLower n ++ helmSeg4 ++
      goToLower n ++ "-hcs\n      secretKey: caCert\n",
    helmSeg6 ++ f ++
      ":443\nclient:\n  enabled: true\n  # If you are using Kubenet in your AKS cluster (the default network),\n  # uncomment the line below.\n  # exposeGossipPorts: true\n  ",
    helmSeg8, ?_⟩
  simp only [generateHelmConfig, helmConfigTemplate, h0]
  rw [show helmSeg5 =
        "-hcs\n      secretKey: caCert\n" ++ "externalServers:\n  enabled: true\n  hosts: "
        from rfl,
      show helmSeg7 =
        ":443\nclient:\n  enabled: true\n  # If you are using Kubenet in your AKS cluster (the default network),\n  # uncomment the line below.\n  # exposeGossipPorts: true\n  " ++
          "join: " from rfl,
      show ("externalServers:\n  enabled: true\n  hosts: []" : String) =
        "externalServers:\n  enabled: true\n  hosts: " ++ "[]" from rfl,
      show ("join: []" : String) = "join: " ++ "[]" from rfl]
  simp only [String.append_assoc]

/-- C8: for two render invocations sharing the application name but with
arbitrary different datacenters, FQDNs and join lists, both outputs fill
the three secret-name verbs with one and the same prefix, the lowercased
application name; no other input reaches those positions. -/
theorem secret_names_depend_only_on_app_name
    (n d1 f1 d2 f2 : String) (r1 r2 : List String) :
    ∃ p, p = goToLower n ∧
      generateHelmConfig n d1 f1 r1 =
        helmConfigTemplate d1 p p p (joinListToken r1) f1 (joinListToken r1) ∧
      generateHelmConfig n d2 f2 r2 =
        helmConfigTemplate d2 p p p (joinListToken r2) f2 (joinListToken r2) :=
  ⟨goToLower n, rfl, rfl, rfl⟩

/-- C4 witness: the decomposition at a concrete non-empty name. -/
theorem secret_name_slug_three_sites_witness :
    (∃ A B C D, generateHelmConfig "MyApp" "dc1" "cluster.example.com" ["1.2.3.4"] =
        A ++ ("secretName: " ++ goToLower "MyApp" ++ "-bootstrap-token") ++ B ++
          ("secretName: " ++ goToLower "MyApp" ++ "-hcs") ++ C ++
          ("secretName: " ++ goToLower "MyApp" ++ "-hcs") ++ D) ∧
      occCount ("secretName: ").data (helmConfigTemplate "" "" "" "" "" "" "").data = 3 :=
  secret_name_slug_three_sites "MyApp" "dc1" "cluster.example.com" ["1.2.3.4"] (by decide)

/-!
Claims about the read operation.
-/

/-- Helper: the first character of `s ++ t` is the first character of a
non-empty `s`. -/
theorem head_data_append (s t : String) (c : Char) (h : s.data.head? = some c) :
    (s ++ t).data.head? = some c := by
  rw [String.data_append]
  cases hs : s.data with
  | nil => rw [hs] at h; cases h
  | cons a l =>
    rw [hs] at h
    injection h with h
    rw [h]
    rfl

/-- C6: with `aks_resource_group` absent (empty) the read behaves exactly
as if it were set to `resource_group_name`, and the effective resource
group of the cluster lookup is `resource_group_name`; a non-empty
`aks_resource_group` is used unchanged.  (`dataSourceAgentHelmConfigRead`
performs its cluster lookup at `effectiveAksResourceGroup` by
definition.) -/
theorem aks_resource_group_defaulting (d : ReadInputs) (meta : Clients) :
    (d.aksResourceGroup = "" →
      effectiveAksResourceGroup d.aksResourceGroup d.resourceGroupName = d.resourceGroupName ∧
        dataSourceAgentHelmConfigRead d meta =
          dataSourceAgentHelmConfigRead
            { d with aksResourceGroup := d.resourceGroupName } meta) ∧
      (d.aksResourceGroup ≠ "" →
        effectiveAksResourceGroup d.aksResourceGroup d.resourceGroupName =
          d.aksResourceGroup) := by
  constructor
  · intro h
    constructor
    · simp [effectiveAksResourceGroup, h]
    · simp only [dataSourceAgentHelmConfigRead, effectiveAksResourceGroup, h]
      simp
  · intro h
    simp [effectiveAksResourceGroup, h]

/-- C6 witness: for the concrete inputs with absent `aks_resource_group`,
the read result is unchanged by writing `resource_group_name` into the
override field. -/
theorem aks_resource_group_defaulting_witness :
    dataSourceAgentHelmConfigRead witnessInputs witnessClients =
      dataSourceAgentHelmConfigRead
        { witnessInputs with aksResourceGroup := witnessInputs.resourceGroupName }
        witnessClients :=
  ((aks_resource_group_defaulting witnessInputs witnessClients).1 rfl).2

/-- C7: a 404 managed-application lookup yields the dedicated NotFound
diagnostic, which differs from every Transport diagnostic of that lookup,
embeds the quoted application and resource-group names, and the read
returns without producing a config (no success result). -/
theorem app_not_found_distinct_failure (d : ReadInputs) (meta : Clients)
    (app : ManagedApplication)
    (happ : meta.managedApplicationGet d.resourceGroupName d.managedApplicationName =
      Except.ok app)
    (h404 : app.statusCode = 404) :
    dataSourceAgentHelmConfigRead d meta =
        ReadResult.diag (appNotFoundMsg d.managedApplicationName d.resourceGroupName) ∧
      (∀ e, appNotFoundMsg d.managedApplicationName d.resourceGroupName ≠
        appTransportMsg d.managedApplicationName d.resourceGroupName e) ∧
      (∃ A B C, appNotFoundMsg d.managedApplicationName d.resourceGroupName =
        A ++ goQuote d.managedApplicationName ++ B ++ goQuote d.resourceGroupName ++ C) ∧
      (∀ cfg i, dataSourceAgentHelmConfigRead d meta ≠ ReadResult.ok cfg i) := by
  have hmain : dataSourceAgentHelmConfigRead d meta =
      ReadResult.diag (appNotFoundMsg d.managedApplicationName d.resourceGroupName) := by
    simp only [dataSourceAgentHelmConfigRead, happ]
    simp [h404]
  refine ⟨hmain, ?_, ?_, ?_⟩
  · intro e heq
    have h1 : (appNotFoundMsg d.managedApplicationName d.resourceGroupName).data.head? =
        some (Char.ofNat 91) := by
      unfold appNotFoundMsg
      apply head_data_append
      apply head_data_append
      apply head_data_append
      apply head_data_append
      rfl
    have h2 : (appTransportMsg d.managedApplicationName d.resourceGroupName e).data.head? =
        some (Char.ofNat 102) := by
      unfold appTransportMsg
      apply head_data_append
      apply head_data_append
      apply head_data_append
      apply head_data_append
      apply head_data_append
      rfl
    rw [heq, h2] at h1
    exact absurd h1 (by decide)
  · exact ⟨"[ERROR] no HCS Cluster found for (Managed Application ", ") (Resource Group ",
      ").", rfl⟩
  · intro cfg i h
    rw [hmain] at h
    exact ReadResult.noConfusion h

/-- C7 witness: the 404 scenario at concrete inputs and collaborators. -/
theorem app_not_found_distinct_failure_witness :
    dataSourceAgentHelmConfigRead witnessInputs witness404Clients =
        ReadResult.diag
          (appNotFoundMsg witnessInputs.managedApplicationName witnessInputs.resourceGroupName) ∧
      (∀ e, appNotFoundMsg witnessInputs.managedApplicationName witnessInputs.resourceGroupName ≠
        appTransportMsg witnessInputs.managedApplicationName witnessInputs.resourceGroupName e) ∧
      (∃ A B C, appNotFoundMsg witnessInputs.managedApplicationName witnessInputs.resourceGroupName =
        A ++ goQuote witnessInputs.managedApplicationName ++ B ++
          goQuote witnessInputs.resourceGroupName ++ C) ∧
      (∀ cfg i, dataSourceAgentHelmConfigRead witnessInputs witness404Clients ≠
        ReadResult.ok cfg i) :=
  app_not_found_distinct_failure witnessInputs witness404Clients ⟨404, none, none⟩ rfl rfl

/-- C9: every successful read assigns as resource id the managed
application's own id followed by the literal suffix
`/agent-helm-config`. -/
theorem id_suffix_agent_helm_config (d : ReadInputs) (meta : Clients) (cfg i : String)
    (h : dataSourceAgentHelmConfigRead d meta = ReadResult.ok cfg i) :
    ∃ app appID,
      meta.managedApplicationGet d.resourceGroupName d.managedApplicationName =
          Except.ok app ∧
        app.id = some appID ∧ i = appID ++ "/agent-helm-config" := by
  unfold dataSourceAgentHelmConfigRead at h
  cases hE : meta.managedApplicationGet d.resourceGroupName d.managedApplicationName with
  | error e => simp [hE] at h
  | ok app =>
    refine ⟨app, ?_⟩
    simp only [hE] at h
    by_cases h404 : app.statusCode = 404
    · simp [h404] at h
    · simp only [if_neg h404] at h
      cases hM : app.managedResourceGroupID with
      | none => simp [hM, derefOr] at h
      | some mrg =>
        simp only [hM, derefOr] at h
        cases hC : meta.customResourceProviderConfig mrg with
        | error e => simp [hC] at h
        | ok resp =>
          simp only [hC] at h
          cases hJ : meta.jsonUnmarshalConsulConfig resp.clientConfig with
          | error e => simp [hJ] at h
          | ok consulConfig =>
            simp only [hJ] at h
            cases hK : meta.managedClustersGet
                (effectiveAksResourceGroup d.aksResourceGroup d.resourceGroupName)
                d.aksClusterName with
            | error e => simp [hK] at h
            | ok mcResp =>
              simp only [hK] at h
              by_cases k404 : mcResp.statusCode = 404
              · simp [k404] at h
              · simp only [if_neg k404] at h
                cases hF : mcResp.fqdn with
                | none => simp [hF, derefOr] at h
                | some fq =>
                  simp only [hF, derefOr] at h
                  cases hI : app.id with
                  | none => simp [hI, derefOr] at h
                  | some appID =>
                    simp only [hI, derefOr, ReadResult.ok.injEq] at h
                    exact ⟨appID, rfl, rfl, h.2.symm⟩

/-- C9 witness: the successful concrete read carries id
`app-id/agent-helm-config`. -/
theorem id_suffix_agent_helm_config_witness :
    ∃ app appID,
      witnessClients.managedApplicationGet witnessInputs.resourceGroupName
          witnessInputs.managedApplicationName = Except.ok app ∧
        app.id = some appID ∧
        "app-id/agent-helm-config" = appID ++ "/agent-helm-config" :=
  id_suffix_agent_helm_config witnessInputs witnessClients
    (generateHelmConfig "App-One" "dc1" "cluster.example.com" ["1.2.3.4"])
    "app-id/agent-helm-config" (by decide)

/-- C10: after an error-free, non-404 managed-application lookup the read
dereferences `ManagedResourceGroupID` unguarded (a nil value panics); after
an error-free, non-404 cluster lookup it dereferences `Fqdn` unguarded; the
final id assignment dereferences `ID` unguarded; and whenever all three
pointer fields of all successful responses are present the read never
reaches the panic outcome. -/
theorem nil_pointer_unguarded (d : ReadInputs) (meta : Clients) :
    (∀ app,
        meta.managedApplicationGet d.resourceGroupName d.managedApplicationName =
            Except.ok app →
          app.statusCode ≠ 404 → app.managedResourceGroupID = none →
          dataSourceAgentHelmConfigRead d meta = ReadResult.nilDeref) ∧
      (∀ app mrg resp consulConfig mcResp,
        meta.managedApplicationGet d.resourceGroupName d.managedApplicationName =
            Except.ok app →
          app.statusCode ≠ 404 → app.managedResourceGroupID = some mrg →
          meta.customResourceProviderConfig mrg = Except.ok resp →
          meta.jsonUnmarshalConsulConfig resp.clientConfig = Except.ok consulConfig →
          meta.managedClustersGet
              (effectiveAksResourceGroup d.aksResourceGroup d.resourceGroupName)
              d.aksClusterName = Except.ok mcResp →
          mcResp.statusCode ≠ 404 → mcResp.fqdn = none →
          dataSourceAgentHelmConfigRead d meta = ReadResult.nilDeref) ∧
      (∀ app mrg resp consulConfig mcResp fq,
        meta.managedApplicationGet d.resourceGroupName d.managedApplicationName =
            Except.ok app →
          app.statusCode ≠ 404 → app.managedResourceGroupID = some mrg →
          meta.customResourceProviderConfig mrg = Except.ok resp →
          meta.jsonUnmarshalConsulConfig resp.clientConfig = Except.ok consulConfig →
          meta.managedClustersGet
              (effectiveAksResourceGroup d.aksResourceGroup d.resourceGroupName)
              d.aksClusterName = Except.ok mcResp →
          mcResp.statusCode ≠ 404 → mcResp.fqdn = some fq → app.id = none →
          dataSourceAgentHelmConfigRead d meta = ReadResult.nilDeref) ∧
      ((∀ rg an app, meta.managedApplicationGet rg an = Except.ok app →
          app.managedResourceGroupID ≠ none ∧ app.id ≠ none) →
        (∀ rg cn mcResp, meta.managedClustersGet rg cn = Except.ok mcResp →
          mcResp.fqdn ≠ none) →
        dataSourceAgentHelmConfigRead d meta ≠ ReadResult.nilDeref) := by
  refine ⟨?_, ?_, ?_, ?_⟩
  · intro app hE h404 hM
    simp [dataSourceAgentHelmConfigRead, hE, if_neg h404, hM, derefOr]
  · intro app mrg resp consulConfig mcResp hE h404 hM hC hJ hK k404 hF
    simp [dataSourceAgentHelmConfigRead, hE, if_neg h404, hM, derefOr, hC, hJ, hK,
      if_neg k404, hF]
  · intro app mrg resp consulConfig mcResp fq hE h404 hM hC hJ hK k404 hF hI
    simp [dataSourceAgentHelmConfigRead, hE, if_neg h404, hM, derefOr, hC, hJ, hK,
      if_neg k404, hF, hI]
  · intro hApp hMc
    unfold dataSourceAgentHelmConfigRead
    cases hE : meta.managedApplicationGet d.resourceGroupName d.managedApplicationName with
    | error e => simp
    | ok app =>
      simp only []
      by_cases h404 : app.statusCode = 404
      · simp [h404]
      · simp only [if_neg h404]
        obtain ⟨hmrg, hid⟩ := hApp d.resourceGroupName d.managedApplicationName app hE
        cases hM : app.managedResourceGroupID with
        | none => exact absurd hM hmrg
        | some mrg =>
          simp only [derefOr]
          cases hC : meta.customResourceProviderConfig mrg with
          | error e => simp
          | ok resp =>
            simp only []
            cases hJ : meta.jsonUnmarshalConsulConfig resp.clientConfig with
            | error e => simp
            | ok consulConfig =>
              simp only []
              cases hK : meta.managedClustersGet
                  (effectiveAksResourceGroup d.aksResourceGroup d.resourceGroupName)
                  d.aksClusterName with
              | error e => simp
              | ok mcResp =>
                simp only []
                by_cases k404 : mcResp.statusCode = 404
                · simp [k404]
                · simp only [if_neg k404]
                  cases hF : mcResp.fqdn with
                  | none =>
                    exact absurd hF (hMc _ d.aksClusterName mcResp hK)
                  | some fq =>
                    simp only [derefOr]
                    cases hI : app.id with
                    | none => exact absurd hI hid
                    | some appID => simp [derefOr]

/-- C10 witness: a 200 managed-application response with nil pointers makes
the concrete read end in the nil-dereference outcome. -/
theorem nil_pointer_unguarded_witness :
    dataSourceAgentHelmConfigRead witnessInputs witnessNilClients = ReadResult.nilDeref :=
  (nil_pointer_unguarded witnessInputs witnessNilClients).1 ⟨200, none, none⟩ rfl
    (by decide) rfl
